import Mathlib

/-!
# Verification of the study-assistant session core

A shallow embedding of the session/history core of the `cf_ai_study_assistant`
worker: the `SessionManager` durable object (`src/durable-objects/SessionManager.js`)
and the chat orchestration in `src/index.js` (`handleChatRequest`,
`handleSessionRequest`, `handleClearSessionRequest`, `buildPrompt`, and the
top-level `fetch` router).  The inference collaborator is treated as an opaque
input; durable storage is modelled as a finite map from session keys to an
optional stored history.
-/

set_option autoImplicit false

namespace StudyAssistant

/-- One interaction record, as built inside `SessionManager.addInteraction`:
`{ timestamp: Date.now(), userMessage: message, aiResponse: response }`. -/
structure Interaction where
  timestamp : Nat
  userMessage : String
  aiResponse : String
  deriving Repr, DecidableEq

/-- The history bound: the source keeps only the last 20 interactions. -/
def MAX_HISTORY : Nat := 20

/-- The pure state transition of `SessionManager.addInteraction` on the stored
history list: push the new record at the end, then, if the length now exceeds
20, `shift()` exactly once (remove the front element). -/
def addInteraction (history : List Interaction) (message response : String)
    (now : Nat) : List Interaction :=
  let pushed := history ++ [⟨now, message, response⟩]
  if pushed.length > MAX_HISTORY then pushed.tail else pushed

/-- Durable storage across all session keys: each user id names one durable
object, whose storage holds an optional history list under the key `history`. -/
def Store : Type := String → Option (List Interaction)

/-- The store before any durable object has ever written. -/
def emptyStore : Store := fun _ => none

/-- The durable write `state.storage.put` of a history value for the object
named by `key`. -/
def storePut (s : Store) (key : String) (h : List Interaction) : Store :=
  fun k => if k = key then some h else s k

/-- The durable delete `state.storage.delete` of the history value for the
object named by `key`. -/
def storeDelete (s : Store) (key : String) : Store :=
  fun k => if k = key then none else s k

/-- The storage read with default, `storage.get of history or else the empty
list`: the stored history, or the empty list when nothing was ever stored.
This is the read performed by both `getHistory` and `addInteraction`. -/
def sessionGet (s : Store) (key : String) : List Interaction :=
  (s key).getD []

/-- The `/add` route of the durable object: read the stored history, apply
`addInteraction`, and write the result back. -/
def sessionAdd (s : Store) (key message response : String) (now : Nat) : Store :=
  storePut s key (addInteraction (sessionGet s key) message response now)

/-- The `/clear` route: `SessionManager.clearHistory` deletes the stored
history. -/
def sessionClear (s : Store) (key : String) : Store :=
  storeDelete s key

/-- Replay a whole sequence of `/add` operations against one key's history,
starting from a given history value.  Each element of `ops` is
`(message, response, now)` in submission order. -/
def runAppends (init : List Interaction) (ops : List (String × String × Nat)) :
    List Interaction :=
  ops.foldl (fun h op => addInteraction h op.1 op.2.1 op.2.2) init

/-- The record that the `op = (message, response, now)` append writes. -/
def recordOf (op : String × String × Nat) : Interaction :=
  ⟨op.2.2, op.1, op.2.1⟩

/-! ### Basic shape lemmas about `addInteraction` -/

theorem addInteraction_eq (history : List Interaction) (message response : String)
    (now : Nat) :
    addInteraction history message response now =
      (if MAX_HISTORY ≤ history.length then history.tail else history)
        ++ [⟨now, message, response⟩] := by
  by_cases h : MAX_HISTORY ≤ history.length
  · have hne : history ≠ [] := by
      intro hnil
      rw [hnil] at h
      simp [MAX_HISTORY] at h
    have hlt : MAX_HISTORY < history.length + 1 := by omega
    simp only [addInteraction, List.length_append, List.length_singleton, gt_iff_lt,
      hlt, if_pos, if_pos h]
    cases history with
    | nil => exact absurd rfl hne
    | cons a t => simp
  · have hlt : ¬ MAX_HISTORY < history.length + 1 := by omega
    simp only [addInteraction, List.length_append, List.length_singleton, gt_iff_lt,
      hlt, if_false, if_neg h, ite_false]

theorem addInteraction_length (history : List Interaction) (message response : String)
    (now : Nat) :
    (addInteraction history message response now).length =
      if MAX_HISTORY ≤ history.length then history.length else history.length + 1 := by
  rw [addInteraction_eq]
  by_cases h : MAX_HISTORY ≤ history.length
  · have h20 : 20 ≤ history.length := h
    simp [h, List.length_tail]
    omega
  · simp [h]

theorem addInteraction_length_le (history : List Interaction)
    (message response : String) (now : Nat) (hle : history.length ≤ MAX_HISTORY) :
    (addInteraction history message response now).length ≤ MAX_HISTORY := by
  rw [addInteraction_length]
  by_cases h : MAX_HISTORY ≤ history.length
  · simp [h]; omega
  · simp [h]; omega

theorem runAppends_concat (init : List Interaction)
    (ops : List (String × String × Nat)) (op : String × String × Nat) :
    runAppends init (ops ++ [op]) =
      addInteraction (runAppends init ops) op.1 op.2.1 op.2.2 := by
  simp [runAppends, List.foldl_append]

/-- Replaying any sequence of appends from the empty history leaves exactly
the records of the last 20 appends, as a suffix of the full append log. -/
theorem runAppends_nil (ops : List (String × String × Nat)) :
    runAppends [] ops = (ops.map recordOf).drop (ops.length - MAX_HISTORY) := by
  induction ops using List.reverseRecOn with
  | nil => simp [runAppends]
  | append_singleton ops op ih =>
    rw [runAppends_concat, ih, addInteraction_eq]
    have hlen : (ops.map recordOf).length = ops.length := List.length_map _ _
    by_cases h : MAX_HISTORY ≤ ops.length
    · have hdlen : ((ops.map recordOf).drop (ops.length - MAX_HISTORY)).length
          = MAX_HISTORY := by
        rw [List.length_drop, hlen]
        have h20 : 20 ≤ ops.length := h
        simp [MAX_HISTORY]
        omega
      rw [if_pos (le_of_eq hdlen.symm), List.tail_drop]
      have h1 : ops.length - MAX_HISTORY + 1 = ops.length + 1 - MAX_HISTORY := by
        have h20 : 20 ≤ ops.length := h
        simp [MAX_HISTORY]
        omega
      rw [h1, List.map_append, List.length_append]
      simp only [List.map_cons, List.map_nil, List.length_cons, List.length_nil]
      rw [List.drop_append_of_le_length (by rw [hlen]; simp only [MAX_HISTORY]; omega)]
      simp [recordOf]
    · have h20 : ops.length < 20 := by
        simp [MAX_HISTORY] at h
        omega
      have hz : ops.length - MAX_HISTORY = 0 := by simp [MAX_HISTORY]; omega
      have hz1 : ops.length + 1 - MAX_HISTORY = 0 := by simp [MAX_HISTORY]; omega
      have hcond : ¬ MAX_HISTORY ≤ ((ops.map recordOf).drop (ops.length - MAX_HISTORY)).length := by
        rw [List.length_drop, hlen]
        simp [MAX_HISTORY]
        omega
      rw [if_neg hcond, hz, List.map_append, List.length_append]
      simp only [List.map_cons, List.map_nil, List.length_cons, List.length_nil]
      rw [List.drop_zero]
      have : ops.length + (0 + 1) - MAX_HISTORY = 0 := by simp [MAX_HISTORY]; omega
      rw [this, List.drop_zero]
      simp [recordOf]

/-- C1: for every sequence of append operations applied to one key starting
from the empty History, after every append (equivalently: for every such
sequence, hence every prefix) the History has length at most 20, and its
records are exactly the 20 most recently appended records in their original
append order. -/
theorem history_bounded_and_fifo (ops : List (String × String × Nat)) :
    (runAppends [] ops).length ≤ MAX_HISTORY ∧
      runAppends [] ops = ((ops.map recordOf).reverse.take MAX_HISTORY).reverse := by
  constructor
  · rw [runAppends_nil, List.length_drop, List.length_map]
    simp [MAX_HISTORY]
    omega
  · rw [runAppends_nil, List.take_reverse, List.reverse_reverse, List.length_map]

/-! ### Session-level lemmas -/

theorem sessionGet_sessionAdd (s : Store) (key message response : String) (now : Nat) :
    sessionGet (sessionAdd s key message response now) key =
      addInteraction (sessionGet s key) message response now := by
  simp [sessionAdd, sessionGet, storePut]

/-- C4: for every key and every pair of interactions A and B (over any prior
store state), recording A then B for that key and then reading the history
yields a list in which A's record immediately precedes B's record at the end:
A appears strictly before B. -/
theorem record_order (s : Store) (key mA rA mB rB : String) (tA tB : Nat) :
    ∃ p, sessionGet (sessionAdd (sessionAdd s key mA rA tA) key mB rB tB) key =
      p ++ [(⟨tA, mA, rA⟩ : Interaction), (⟨tB, mB, rB⟩ : Interaction)] := by
  rw [sessionGet_sessionAdd, sessionGet_sessionAdd]
  obtain ⟨p1, hp1⟩ : ∃ p1, addInteraction (sessionGet s key) mA rA tA =
      p1 ++ [(⟨tA, mA, rA⟩ : Interaction)] := ⟨_, addInteraction_eq _ _ _ _⟩
  rw [hp1, addInteraction_eq _ mB rB tB]
  by_cases hc : MAX_HISTORY ≤ (p1 ++ [(⟨tA, mA, rA⟩ : Interaction)]).length
  · rw [if_pos hc]
    cases p1 with
    | nil => simp [MAX_HISTORY] at hc
    | cons a t => exact ⟨t, by simp⟩
  · rw [if_neg hc]
    exact ⟨p1, by simp⟩

/-- C6: clearing a key's history and then loading it yields the empty
sequence, and loading a key that was never written yields the empty sequence
(the read never fails: it is total). -/
theorem clear_then_load (s : Store) (key : String) :
    sessionGet (sessionClear s key) key = [] ∧ sessionGet emptyStore key = [] := by
  constructor
  · simp [sessionGet, sessionClear, storeDelete]
  · simp [sessionGet, emptyStore]

/-- C5 counterexample: on a pre-existing history of 21 records the claimed
shape fails.  Appending one record makes 22 > 20, but `addInteraction` only
shifts once, leaving 21 records — not "exactly 20". -/
theorem append_evict_cex :
    (addInteraction (List.replicate 21 (⟨0, "", ""⟩ : Interaction)) "m" "r" 0).length = 21 ∧
      ¬ (addInteraction (List.replicate 21 (⟨0, "", ""⟩ : Interaction)) "m" "r" 0).length
          = MAX_HISTORY := by
  rw [addInteraction_length]
  simp [MAX_HISTORY]

/-- C5 amended: `append(key, record)` appends the record at the end and, if
the resulting length exceeds 20, evicts exactly one record (the oldest) from
the front; consequently a history of length at most 20 stays at length at
most 20, but a longer pre-existing history shrinks by at most one. -/
theorem append_shape (history : List Interaction) (m r : String) (t : Nat) :
    addInteraction history m r t =
      (if MAX_HISTORY < history.length + 1 then history.drop 1 else history)
        ++ [(⟨t, m, r⟩ : Interaction)]
    ∧ (history.length ≤ MAX_HISTORY → (addInteraction history m r t).length ≤ MAX_HISTORY) := by
  constructor
  · rw [addInteraction_eq, List.drop_one]
    congr 1
    by_cases h : MAX_HISTORY ≤ history.length
    · rw [if_pos h, if_pos (by omega)]
    · rw [if_neg h, if_neg (by omega)]
  · intro hle
    exact addInteraction_length_le history m r t hle

/-- Witness for the amended C5 at a concrete input: a history of 5 records
stays within the bound after an append. -/
theorem append_shape_witness :
    (addInteraction (List.replicate 5 (⟨0, "", ""⟩ : Interaction)) "m" "r" 3).length
      ≤ MAX_HISTORY :=
  (append_shape (List.replicate 5 (⟨0, "", ""⟩ : Interaction)) "m" "r" 3).2
    (by simp [MAX_HISTORY])

/-! ### Prompt builder (`buildPrompt` in src/index.js) -/

/-- The fixed system preamble of `buildPrompt`. -/
def sysPreamble : String :=
  "You are an AI study assistant specializing in programming and computer science education.\nYou help students understand complex concepts through clear explanations and examples and you can use technical terminology appropriately.\n"

/-- One prior exchange rendered as the Student and Assistant line pair. -/
def renderEx (h : String × String) : String :=
  "Student: " ++ h.1 ++ "\nAssistant: " ++ h.2 ++ "\n"

/-- The prompt builder `buildPrompt`: start from the preamble; when the
context is non-empty, add the context header and fold each exchange onto the
accumulator (the `forEach` with `prompt +=`), then a blank line; finally add
the current-question section. -/
def buildPrompt (message : String) (history : List (String × String)) : String :=
  let prompt := sysPreamble
  let prompt := if history.length > 0 then
      (history.foldl (fun p h => p ++ renderEx h)
        (prompt ++ "Previous conversation context:\n")) ++ "\n"
    else prompt
  prompt ++ "Current question: " ++ message ++ "\n\nProvide a helpful, educational response:"

/-- The prompt structure exactly as the spec words it: a fixed preamble, then
a transcript block exactly when the context window is non-empty, then the
final question section. -/
def specPrompt (message : String) (history : List (String × String)) : String :=
  sysPreamble ++
    (if history.isEmpty then ""
      else "Previous conversation context:\n" ++ String.join (history.map renderEx) ++ "\n") ++
    ("Current question: " ++ message ++ "\n\nProvide a helpful, educational response:")

theorem foldl_string_append : ∀ (l : List String) (init : String),
    List.foldl (fun r s => r ++ s) init l = init ++ String.join l
  | [], init => by simp [String.join]
  | a :: t, init => by
    rw [List.foldl_cons, foldl_string_append t (init ++ a)]
    have hj : String.join (a :: t) = a ++ String.join t := by
      show List.foldl (fun r s => r ++ s) a t = a ++ String.join t
      exact foldl_string_append t a
    rw [hj, String.append_assoc]

theorem string_join_cons (a : String) (t : List String) :
    String.join (a :: t) = a ++ String.join t := by
  show List.foldl (fun r s => r ++ s) a t = a ++ String.join t
  exact foldl_string_append t a

theorem foldl_append_eq_join (f : (String × String) → String)
    (l : List (String × String)) (init : String) :
    l.foldl (fun p h => p ++ f h) init = init ++ String.join (l.map f) := by
  rw [← List.foldl_map, foldl_string_append]

/-! ### Chat orchestration (`src/index.js`) -/

/-- The opaque inference collaborator's outcome for one call: a completion
object whose `response` field may be absent, or a thrown error/timeout. -/
inductive InferenceResult where
  | ok (completion : Option String)
  | err
  deriving Repr, DecidableEq

/-- Fallback substituted when the completion field is falsy (absent or
empty). -/
def emptyFallback : String :=
  "I apologize, but I could not generate a response. Please try again."

/-- Fallback substituted by the `catch` branch when inference throws. -/
def errorFallback : String :=
  "I encountered an error while processing your request. Please try again."

/-- The response selection: the completion field when it is truthy, the
apology fallback when it is absent or empty, all inside a try/catch whose
catch arm sets `errorFallback` (src/index.js lines 79-94). -/
def computeAiResponse (inf : InferenceResult) : String :=
  match inf with
  | .err => errorFallback
  | .ok none => emptyFallback
  | .ok (some c) => if c = "" then emptyFallback else c

/-- The user/assistant string pair of one stored interaction. -/
def toExchange (h : Interaction) : String × String :=
  (h.userMessage, h.aiResponse)

/-- The context window built from the stored history on each chat turn: the
slice of the last five records, each mapped to its user/assistant pair. -/
def recentWindow (history : List Interaction) : List (String × String) :=
  (history.drop (history.length - 5)).map toExchange

/-- An incoming HTTP request, reduced to the parts the worker reads: method,
path, the `userId` query parameter (absent or present), and the two JSON body
fields (the empty string models an absent or empty field, both falsy). -/
structure Request where
  method : String
  path : String
  queryUserId : Option String
  bodyUserId : String
  bodyMessage : String
  deriving Repr, DecidableEq

/-- The observable body of a worker response. -/
inductive RespBody where
  | empty
  | html
  | plain (s : String)
  | jsonError (msg : String)
  | jsonHistory (h : List Interaction)
  | jsonChat (response sessionId : String)
  | jsonSuccess
  deriving Repr, DecidableEq

structure HttpResponse where
  status : Nat
  body : RespBody
  deriving Repr, DecidableEq

/-- The chat orchestrator `handleChatRequest`: method guard, body validation,
history read, context window, prompt build, inference with fallback, durable
append, reply. -/
def handleChatRequest (req : Request) (inf : String → InferenceResult)
    (now : Nat) (s : Store) : HttpResponse × Store :=
  if req.method ≠ "POST" then (⟨405, .plain "Method not allowed"⟩, s)
  else if req.bodyUserId = "" ∨ req.bodyMessage = "" then
    (⟨400, .jsonError "Missing userId or message"⟩, s)
  else
    let userId := req.bodyUserId
    let message := req.bodyMessage
    let history := sessionGet s userId
    let contextWindow := recentWindow history
    let aiResponse := computeAiResponse (inf (buildPrompt message contextWindow))
    let s2 := sessionAdd s userId message aiResponse now
    (⟨200, .jsonChat aiResponse userId⟩, s2)

/-- The read-only history passthrough `handleSessionRequest`, keyed by the
`userId` query parameter. -/
def handleSessionRequest (req : Request) (s : Store) : HttpResponse × Store :=
  if req.queryUserId.getD "" = "" then (⟨400, .jsonError "Missing userId"⟩, s)
  else (⟨200, .jsonHistory (sessionGet s (req.queryUserId.getD ""))⟩, s)

/-- The clear passthrough `handleClearSessionRequest`: clears the history for
the `userId` query parameter. -/
def handleClearSessionRequest (req : Request) (s : Store) : HttpResponse × Store :=
  if req.method ≠ "POST" then (⟨405, .plain "Method not allowed"⟩, s)
  else if req.queryUserId.getD "" = "" then (⟨400, .jsonError "Missing userId"⟩, s)
  else (⟨200, .jsonSuccess⟩, sessionClear s (req.queryUserId.getD ""))

/-- The unimplemented voice stub, returning 501. -/
def handleVoiceRequest (s : Store) : HttpResponse × Store :=
  (⟨501, .jsonError "Voice transcription not yet implemented"⟩, s)

/-- The recognized API paths of the top-level router. -/
def apiPaths : List String :=
  ["/api/chat", "/api/session", "/api/session/clear", "/api/voice"]

/-- The worker's top-level `fetch`: CORS preflight, the four API routes, and
otherwise the static HTML frontend. -/
def workerFetch (req : Request) (inf : String → InferenceResult) (now : Nat)
    (s : Store) : HttpResponse × Store :=
  if req.method = "OPTIONS" then (⟨200, .empty⟩, s)
  else if req.path = "/api/chat" then handleChatRequest req inf now s
  else if req.path = "/api/session" then handleSessionRequest req s
  else if req.path = "/api/session/clear" then handleClearSessionRequest req s
  else if req.path = "/api/voice" then handleVoiceRequest s
  else (⟨200, .html⟩, s)

/-! ### Claim theorems about the orchestration layer -/

/-- C8: `buildPrompt` is a pure deterministic function whose output is the
fixed preamble, then — exactly when the context window is non-empty — the
labeled transcript of each prior exchange in order as Student and Assistant
line pairs, then the final section with the current question and the
instruction to respond helpfully and educationally. -/
theorem buildPrompt_spec (m : String) (h : List (String × String)) :
    buildPrompt m h = specPrompt m h ∧
      (∀ m2 h2, m2 = m → h2 = h → buildPrompt m2 h2 = buildPrompt m h) := by
  constructor
  · cases h with
    | nil => simp [buildPrompt, specPrompt, String.append_assoc]
    | cons a t =>
      simp [buildPrompt, specPrompt, foldl_append_eq_join, string_join_cons,
        String.append_assoc]
      rw [show ("\nCurrent question: " ++ (m ++ "\n\nProvide a helpful, educational response:") : String)
            = "\n" ++ ("Current question: " ++ (m ++ "\n\nProvide a helpful, educational response:"))
          from rfl]
  · intro m2 h2 hm2 hh2
    rw [hm2, hh2]

/-- Witness for C8 at a concrete input. -/
theorem buildPrompt_spec_witness :
    buildPrompt "What is a stack?" [("hi", "hello")] =
        specPrompt "What is a stack?" [("hi", "hello")] ∧
      buildPrompt "What is a stack?" [("hi", "hello")] =
        buildPrompt "What is a stack?" [("hi", "hello")] :=
  ⟨(buildPrompt_spec "What is a stack?" [("hi", "hello")]).1,
    (buildPrompt_spec "What is a stack?" [("hi", "hello")]).2 _ _ rfl rfl⟩

/-- C7: the context window built on a chat turn is exactly the last
min(n, 5) records of the history, oldest first (a suffix of the unchanged
history), each mapped to its (user, assistant) pair; the history value
itself is left untouched by this derived view. -/
theorem recentWindow_spec (history : List Interaction) :
    ∃ pre suf, history = pre ++ suf ∧ suf.length = min history.length 5 ∧
      recentWindow history = suf.map toExchange :=
  ⟨history.take (history.length - 5), history.drop (history.length - 5),
    (List.take_append_drop _ _).symm,
    by rw [List.length_drop]; omega, rfl⟩

/-- C3: a chat request whose body lacks `userId` or `message` (either field
empty/absent) gets a 400 response whose JSON body carries the fixed error
message Missing userId or message, and the store is returned unchanged: no
history is touched. -/
theorem chat_missing_field (req : Request) (inf : String → InferenceResult)
    (now : Nat) (s : Store) (hpost : req.method = "POST")
    (hmiss : req.bodyUserId = "" ∨ req.bodyMessage = "") :
    handleChatRequest req inf now s =
      (⟨400, RespBody.jsonError "Missing userId or message"⟩, s) := by
  rcases hmiss with h | h <;> simp [handleChatRequest, hpost, h]

/-- Witness for C3 at a concrete input (missing `userId`). -/
theorem chat_missing_field_witness :
    handleChatRequest ⟨"POST", "/api/chat", none, "", "hello"⟩ (fun _ => .err) 0 emptyStore =
      (⟨400, RespBody.jsonError "Missing userId or message"⟩, emptyStore) :=
  chat_missing_field ⟨"POST", "/api/chat", none, "", "hello"⟩ (fun _ => .err) 0 emptyStore
    rfl (Or.inl rfl)

/-- C2: when `userId` and `message` are non-empty and the inference call
fails (throws or times out), the chat turn still returns 200 with the fixed,
non-empty error fallback string, and exactly one new record is appended to
that user's history with that fallback as its `aiResponse` (the front record
being evicted only when the history was full). -/
theorem chat_inference_failure (req : Request) (inf : String → InferenceResult)
    (now : Nat) (s : Store) (hpost : req.method = "POST")
    (hu : req.bodyUserId ≠ "") (hm : req.bodyMessage ≠ "")
    (hinf : ∀ p, inf p = InferenceResult.err) :
    (handleChatRequest req inf now s).1 =
        ⟨200, RespBody.jsonChat errorFallback req.bodyUserId⟩ ∧
      errorFallback ≠ "" ∧
      sessionGet (handleChatRequest req inf now s).2 req.bodyUserId =
        (if MAX_HISTORY ≤ (sessionGet s req.bodyUserId).length
          then (sessionGet s req.bodyUserId).tail
          else sessionGet s req.bodyUserId)
          ++ [(⟨now, req.bodyMessage, errorFallback⟩ : Interaction)] := by
  have hstep : handleChatRequest req inf now s =
      (⟨200, RespBody.jsonChat errorFallback req.bodyUserId⟩,
        sessionAdd s req.bodyUserId req.bodyMessage errorFallback now) := by
    simp [handleChatRequest, hpost, hu, hm, hinf, computeAiResponse]
  rw [hstep]
  refine ⟨rfl, by simp [errorFallback], ?_⟩
  rw [sessionGet_sessionAdd, addInteraction_eq]

/-- Witness for C2 at a concrete input: user u1, message hi, failing
inference, empty store. -/
theorem chat_inference_failure_witness :
    (handleChatRequest ⟨"POST", "/api/chat", none, "u1", "hi"⟩ (fun _ => .err) 7 emptyStore).1 =
        ⟨200, RespBody.jsonChat errorFallback "u1"⟩ ∧
      errorFallback ≠ "" ∧
      sessionGet (handleChatRequest ⟨"POST", "/api/chat", none, "u1", "hi"⟩
          (fun _ => .err) 7 emptyStore).2 "u1" =
        (if MAX_HISTORY ≤ (sessionGet emptyStore "u1").length
          then (sessionGet emptyStore "u1").tail
          else sessionGet emptyStore "u1")
          ++ [(⟨7, "hi", errorFallback⟩ : Interaction)] :=
  chat_inference_failure ⟨"POST", "/api/chat", none, "u1", "hi"⟩ (fun _ => .err) 7 emptyStore
    rfl (by simp) (by simp) (fun _ => rfl)

/-- C10: when inference succeeds but yields an absent or empty completion,
the fixed apology string is substituted, returned, and recorded as the new
record's `aiResponse`; an empty `aiResponse` is never returned or recorded. -/
theorem chat_empty_completion (req : Request) (inf : String → InferenceResult)
    (now : Nat) (s : Store) (hpost : req.method = "POST")
    (hu : req.bodyUserId ≠ "") (hm : req.bodyMessage ≠ "")
    (hinf : ∀ p, inf p = InferenceResult.ok none ∨ inf p = InferenceResult.ok (some "")) :
    (handleChatRequest req inf now s).1 =
        ⟨200, RespBody.jsonChat emptyFallback req.bodyUserId⟩ ∧
      emptyFallback ≠ "" ∧
      sessionGet (handleChatRequest req inf now s).2 req.bodyUserId =
        (if MAX_HISTORY ≤ (sessionGet s req.bodyUserId).length
          then (sessionGet s req.bodyUserId).tail
          else sessionGet s req.bodyUserId)
          ++ [(⟨now, req.bodyMessage, emptyFallback⟩ : Interaction)] := by
  have hair : ∀ p, computeAiResponse (inf p) = emptyFallback := by
    intro p
    rcases hinf p with h | h <;> simp [h, computeAiResponse]
  have hstep : handleChatRequest req inf now s =
      (⟨200, RespBody.jsonChat emptyFallback req.bodyUserId⟩,
        sessionAdd s req.bodyUserId req.bodyMessage emptyFallback now) := by
    simp [handleChatRequest, hpost, hu, hm, hair]
  rw [hstep]
  refine ⟨rfl, by simp [emptyFallback], ?_⟩
  rw [sessionGet_sessionAdd, addInteraction_eq]

/-- Witness for C10 at a concrete input: completion present but empty. -/
theorem chat_empty_completion_witness :
    (handleChatRequest ⟨"POST", "/api/chat", none, "u2", "hey"⟩
        (fun _ => .ok (some "")) 9 emptyStore).1 =
        ⟨200, RespBody.jsonChat emptyFallback "u2"⟩ ∧
      emptyFallback ≠ "" ∧
      sessionGet (handleChatRequest ⟨"POST", "/api/chat", none, "u2", "hey"⟩
          (fun _ => .ok (some "")) 9 emptyStore).2 "u2" =
        (if MAX_HISTORY ≤ (sessionGet emptyStore "u2").length
          then (sessionGet emptyStore "u2").tail
          else sessionGet emptyStore "u2")
          ++ [(⟨9, "hey", emptyFallback⟩ : Interaction)] :=
  chat_empty_completion ⟨"POST", "/api/chat", none, "u2", "hey"⟩ (fun _ => .ok (some "")) 9
    emptyStore rfl (by simp) (by simp) (fun _ => Or.inr rfl)

/-- C9 counterexample: the request `GET /definitely-missing` matches no API
route, yet the worker answers 200 (the static page), not 404. -/
theorem route_not_found_cex :
    (workerFetch ⟨"GET", "/definitely-missing", none, "", ""⟩
        (fun _ => .err) 0 emptyStore).1.status = 200 ∧
      ¬ (workerFetch ⟨"GET", "/definitely-missing", none, "", ""⟩
          (fun _ => .err) 0 emptyStore).1.status = 404 := by
  constructor
  · rfl
  · intro hcontra
    simp [workerFetch] at hcontra

/-- C9 amended: for every request whose method is not OPTIONS and whose path
is not one of the recognized API routes, the worker responds with the static
HTML page at status 200 and performs no side effects (the store is returned
unchanged). -/
theorem route_fallthrough (req : Request) (inf : String → InferenceResult)
    (now : Nat) (s : Store) (hopt : req.method ≠ "OPTIONS")
    (hpath : ¬ req.path ∈ apiPaths) :
    workerFetch req inf now s = (⟨200, RespBody.html⟩, s) := by
  simp only [apiPaths, List.mem_cons, List.mem_singleton, not_or] at hpath
  obtain ⟨h1, h2, h3, h4⟩ := hpath
  simp [workerFetch, hopt, h1, h2, h3, h4]

/-- Witness for the amended C9 at a concrete input. -/
theorem route_fallthrough_witness :
    workerFetch ⟨"GET", "/some/other/page", none, "", ""⟩ (fun _ => .err) 0 emptyStore =
      (⟨200, RespBody.html⟩, emptyStore) :=
  route_fallthrough ⟨"GET", "/some/other/page", none, "", ""⟩ (fun _ => .err) 0 emptyStore
    (by simp) (by simp [apiPaths])

end StudyAssistant
